import Mathlib

/-!
Verification of the PayPal vendor-marketplace plugin against its
natural-language specification.

The development shallowly embeds the Python modules of the repository:

* `paypal_package/client.py` — the token cache of `PayPalClient._get_access_token`
  becomes a pure state-transition function `getAccessToken` over `ClientState`,
  parameterised by the outcome of the (external) OAuth exchange.
* `paypal_package/credentials.py` — `CredentialManager.store_credentials` and
  `CredentialManager.set_active_configuration` become pure functions over a list
  of `PayPalConfig` rows.  Fernet encryption and base64 wrapping are identity
  on the stored strings here: the claims under study concern only the
  activation flags, never the ciphertext contents.
* `paypal_package/webhooks.py` — `WebhookHandler.process_webhook` and its
  helpers become a pure function `processWebhook` over a `SysState` holding the
  database rows the handler can touch (WebhookEvent, Payment, Order,
  OrderGroup), parameterised by the outcome of the signature-verification call
  to the gateway.  Django ORM queries are list lookups; auto timestamps are
  omitted as no claim mentions them.
-/

namespace PayPalPlugin

/-! ## Token cache (`client.py`, `PayPalClient._get_access_token`) -/

/-- The process-local cache fields of a `PayPalClient` instance:
`self.access_token` and `self.token_expires_at`, both `None` after
`__init__`.  Times are integers standing for `time.time()` values. -/
structure ClientState where
  access_token : Option String
  token_expires_at : Option Int
deriving Repr, DecidableEq

/-- State right after `PayPalClient.__init__`: both fields are `None`. -/
def ClientState.fresh : ClientState := ⟨none, none⟩

/-- Outcome of the single OAuth client-credentials POST: either a token
response body (fields `access_token` and optional `expires_in`, whose
absence defaults to 3600 in the source), or a `requests` exception
(transport failure, or non-2xx via `raise_for_status`). -/
inductive ExchangeResult where
  | success (access_token : String) (expires_in : Option Int)
  | failure
deriving Repr, DecidableEq

/-- Errors `_get_access_token` can raise: `ImproperlyConfigured` from
`get_credentials` when no active configuration exists, or the re-raised
`requests.exceptions.RequestException`. -/
inductive ClientErr where
  | improperlyConfigured
  | requestException
deriving Repr, DecidableEq

/-- The guard in the source:
`if self.access_token and self.token_expires_at: if time.time() < self.token_expires_at:`
Python truthiness makes an empty token string or a zero expiry fall through
to a fresh exchange. -/
def tokenCacheValid (st : ClientState) (now : Int) : Bool :=
  match st.access_token, st.token_expires_at with
  | some t, some e => t ≠ "" && e ≠ 0 && now < e
  | _, _ => false

/-- `PayPalClient._get_access_token`, with the network call abstracted into
`xr` and credential availability into `hasCreds`.  Returns the raised-or-
returned value, the client state after the call, and the number of OAuth
exchanges performed during the call.  On success the source sets
`token_expires_at = time.time() + expires_in - 60`; on a request exception
it re-raises after assigning nothing, leaving the cache unchanged. -/
def getAccessToken (st : ClientState) (now : Int) (hasCreds : Bool)
    (xr : ExchangeResult) : Except ClientErr String × ClientState × Nat :=
  if tokenCacheValid st now then
    (Except.ok (st.access_token.getD ""), st, 0)
  else if !hasCreds then
    (Except.error ClientErr.improperlyConfigured, st, 0)
  else
    match xr with
    | ExchangeResult.success tok expIn =>
        (Except.ok tok, ⟨some tok, some (now + expIn.getD 3600 - 60)⟩, 1)
    | ExchangeResult.failure =>
        (Except.error ClientErr.requestException, st, 1)

/-! ## Credential store (`credentials.py`, `CredentialManager`) -/

/-- `PayPalConfig.mode` choices. -/
inductive Mode where
  | sandbox
  | live
deriving Repr, DecidableEq

/-- A `PayPalConfig` row (`models.py`).  The `name` column is unique. -/
structure PayPalConfig where
  name : String
  client_id : String
  client_secret : String
  mode : Mode
  is_active : Bool
deriving Repr, DecidableEq

/-- The `PayPalConfig` table. -/
abbrev ConfigDB := List PayPalConfig

/-- `CredentialManager.store_credentials`: `update_or_create(name=name,
defaults={client_id, client_secret, mode, is_active: True})`.  Note that it
activates the stored row without deactivating any other row. -/
def store_credentials (db : ConfigDB) (name cid secret : String)
    (mode : Mode) : ConfigDB :=
  if db.any (fun c => c.name == name) then
    db.map (fun c =>
      if c.name == name then
        { c with client_id := cid, client_secret := secret,
                 mode := mode, is_active := true }
      else c)
  else
    db ++ [⟨name, cid, secret, mode, true⟩]

/-- `PayPalConfig.objects.update(is_active=False)`: every row deactivated. -/
def deactivateAll (db : ConfigDB) : ConfigDB :=
  db.map (fun c => { c with is_active := false })

/-- `config.is_active = True; config.save()` for the row named `name`. -/
def activateNamed (name : String) (db : ConfigDB) : ConfigDB :=
  db.map (fun c => if c.name == name then { c with is_active := true } else c)

/-- `CredentialManager.set_active_configuration`: first deactivates every
row (across all environments), then fetches the row by name; when the name
is unknown a `ValueError` is raised (modelled by `none`) with the blanket
deactivation already persisted. -/
def set_active_configuration (db : ConfigDB) (name : String) :
    Option PayPalConfig × ConfigDB :=
  let db2 := deactivateAll db
  match db2.find? (fun c => c.name == name) with
  | some c => (some { c with is_active := true }, activateNamed name db2)
  | none => (none, db2)

/-- Number of active rows for one environment. -/
def activeCountIn (db : ConfigDB) (m : Mode) : Nat :=
  (db.filter (fun c => c.is_active && c.mode == m)).length

/-- The invariant of spec section 3: at most one active config per
environment (`Mode` has exactly the two constructors). -/
def atMostOneActivePerEnv (db : ConfigDB) : Bool :=
  activeCountIn db Mode.sandbox ≤ 1 && activeCountIn db Mode.live ≤ 1

/-! ## Webhook payloads (`webhooks.py`, fields read by the handler) -/

/-- The `amount` object of a capture resource; the handler reads
`amount.get('value') or amount.get('total')`. -/
structure AmountData where
  value : Option String
  total : Option String
deriving Repr, DecidableEq

/-- One entry of `resource['purchase_units']`; the handler reads only
`custom_id` from it. -/
structure PurchaseUnit where
  custom_id : Option String
deriving Repr, DecidableEq

/-- The `resource` object of a webhook payload.  `custom_id` is carried by
real payloads at this level, but `_handle_payment_completed` never reads
it (it only scans `purchase_units`); it is kept in the model so that such
payloads can be written down faithfully. -/
structure ResourceData where
  id : Option String
  custom_id : Option String
  purchase_units : List PurchaseUnit
  amount : Option AmountData
deriving Repr, DecidableEq

/-- The empty dict default of `data.get('resource', {})`. -/
def emptyResource : ResourceData := ⟨none, none, [], none⟩

/-- The empty dict default of `resource.get('amount', {})`. -/
def emptyAmount : AmountData := ⟨none, none⟩

/-- The top-level fields `process_webhook` reads from the parsed JSON body
via `webhook_data.get(...)`. -/
structure WebhookData where
  id : Option String
  event_type : Option String
  resource_type : Option String
  resource_id : Option String
  summary : Option String
  resource : Option ResourceData
deriving Repr, DecidableEq

/-! ## Database rows touched by the handler -/

/-- `Payment.status` values referenced by the handler:
`Payment.PAYMENT_COMPLETE`, `Payment.PAYMENT_PENDING`, a failed value, and
an initial value for rows no handler has touched.  The Payment model lives
in the surrounding application (`order.models`); these constants are the
ones the source dereferences. -/
inductive PaymentStatus where
  | complete
  | pending
  | failed
  | initiated
deriving Repr, DecidableEq

/-- `Order.OrderStatus` / `OrderGroup.OrderStatus` values referenced by the
handler (`PROCESSING`, `PENDING`) plus an initial placed value. -/
inductive OrderStatus where
  | processing
  | pending
  | placed
deriving Repr, DecidableEq

/-- A `Payment` row of the surrounding application: primary key, the
`payment_id` column matched case-insensitively by the handler, status,
paid amount (kept as the decimal string `float(...)` accepted), and the
foreign keys `order` / `order_group` the handler dereferences. -/
structure Payment where
  pk : Nat
  payment_id : String
  status : PaymentStatus
  paid_amount : Option String
  order_id : Option Nat
  order_group_id : Option Nat
deriving Repr, DecidableEq

/-- An `Order` row: integer primary key and the status the handler sets. -/
structure Order where
  id : Nat
  order_status : OrderStatus
deriving Repr, DecidableEq

/-- An `OrderGroup` row. -/
structure OrderGroup where
  id : Nat
  order_status : OrderStatus
deriving Repr, DecidableEq

/-- A `WebhookEvent` row (`models.py`): the columns `process_webhook`
populates, with `processed` flipped by `mark_as_processed`.  Auto
timestamps are omitted. -/
structure WebhookEventRow where
  event_id : String
  event_type : Option String
  resource_type : String
  resource_id : String
  summary : String
  raw_data : WebhookData
  processed : Bool
deriving Repr, DecidableEq

/-- Everything the webhook handler can read or mutate durably. -/
structure SysState where
  events : List WebhookEventRow
  payments : List Payment
  orders : List Order
  order_groups : List OrderGroup
deriving Repr, DecidableEq

/-! ## The handler (`webhooks.py`, `WebhookHandler`) -/

/-- Python `a or b` for an optional string against a string default:
`None` and the empty string both fall through. -/
def orStr (a : Option String) (b : String) : String :=
  match a with
  | some s => if s = "" then b else s
  | none => b

/-- Django coercing a string filter value against the integer primary key
of `Order`: digit strings parse, anything else raises `ValueError`. -/
def parseOrderId (s : String) : Option Nat :=
  if s.data ≠ [] ∧ s.data.all Char.isDigit then
    some (s.data.foldl (fun n c => 10 * n + (c.toNat - 48)) 0)
  else none

/-- Approximates the strings Python `float(...)` accepts: optional sign,
then digits with at most one dot and at least one digit. -/
def isFloatString (s : String) : Bool :=
  let t :=
    match s.data with
    | c :: rest => if c = '-' || c = '+' then rest else s.data
    | [] => s.data
  t ≠ [] && t.all (fun ch => ch.isDigit || ch = '.')
    && (t.filter (fun ch => ch = '.')).length ≤ 1
    && t.any Char.isDigit

/-- ASCII lowercase of one character, approximating the case folding the
Django `__iexact` lookup applies to both sides. -/
def lowerAscii (c : Char) : Char :=
  if 65 ≤ c.toNat ∧ c.toNat ≤ 90 then Char.ofNat (c.toNat + 32) else c

/-- Character-wise lowercase of a string. -/
def strLower (s : String) : String := ⟨s.data.map lowerAscii⟩

/-- `Payment.objects.filter(payment_id__iexact=capture_id).first()`. -/
def findPaymentByCaptureId (payments : List Payment) (cid : String) :
    Option Payment :=
  payments.find? (fun p => strLower p.payment_id == strLower cid)

/-- The `for pu_item in (resource.get('purchase_units') or [])` loop:
`order_id = pu_item.get('custom_id') or order_id` keeps the last truthy
`custom_id` seen. -/
def purchaseUnitsOrderId (pus : List PurchaseUnit) : Option String :=
  pus.foldl
    (fun acc pu =>
      match pu.custom_id with
      | some c => if c = "" then acc else some c
      | none => acc)
    none

/-- The two-step Payment lookup of `_handle_payment_completed`: by capture
id first, then via the purchase-unit `custom_id` interpreted as an `Order`
primary key.  A non-numeric `custom_id` makes the ORM raise `ValueError`,
which the surrounding `except` catches before any mutation has happened,
so it yields no lookup result. -/
def lookupCompletedPayment (payments : List Payment) (orders : List Order)
    (ev : WebhookEventRow) : Option Payment :=
  let resource := ev.raw_data.resource.getD emptyResource
  let capture_id := orStr resource.id ev.resource_id
  match findPaymentByCaptureId payments capture_id with
  | some p => some p
  | none =>
      match purchaseUnitsOrderId resource.purchase_units with
      | some oid =>
          match parseOrderId oid with
          | some n =>
              match orders.find? (fun o => o.id == n) with
              | some o => payments.find? (fun p => p.order_id == some o.id)
              | none => none
          | none => none
      | none => none

/-- `WebhookHandler._handle_payment_completed`.  When no Payment row is
found (or the ORM raised while looking one up) the handler only logs and
mutates nothing.  Otherwise it sets the payment complete, stores the paid
amount when `float(...)` accepts it, overwrites `payment_id` with the
capture id, and advances the owning order or order group to processing. -/
def handlePaymentCompleted (s : SysState) (ev : WebhookEventRow) : SysState :=
  let resource := ev.raw_data.resource.getD emptyResource
  let capture_id := orStr resource.id ev.resource_id
  match lookupCompletedPayment s.payments s.orders ev with
  | none => s
  | some p =>
      let amt := resource.amount.getD emptyAmount
      let paid := orStr amt.value (orStr amt.total "")
      let p2 : Payment := { p with status := PaymentStatus.complete }
      let p3 : Payment :=
        if paid ≠ "" && isFloatString paid then
          { p2 with paid_amount := some paid }
        else p2
      let p4 : Payment := { p3 with payment_id := capture_id }
      let payments2 := s.payments.map (fun q => if q.pk == p.pk then p4 else q)
      match p.order_id with
      | some oid =>
          { s with payments := payments2,
                   orders := s.orders.map (fun o =>
                     if o.id == oid then { o with order_status := OrderStatus.processing }
                     else o) }
      | none =>
          match p.order_group_id with
          | some gid =>
              { s with payments := payments2,
                       order_groups := s.order_groups.map (fun g =>
                         if g.id == gid then { g with order_status := OrderStatus.processing }
                         else g) }
          | none => { s with payments := payments2 }

/-- `WebhookEvent.mark_as_processed` on the row with this event id. -/
def markProcessed (evId : String) (events : List WebhookEventRow) :
    List WebhookEventRow :=
  events.map (fun e => if e.event_id == evId then { e with processed := true } else e)

/-- `WebhookHandler._process_event`: flat dispatch on the event type
string; `PAYMENT.CAPTURE.DENIED` and `CHECKOUT.ORDER.COMPLETED` handlers
only log, every other type is logged as unhandled; then the event is
marked processed.  `_handle_payment_completed` catches its own exceptions,
so the dispatch never raises and the mark always runs. -/
def processEvent (s : SysState) (ev : WebhookEventRow) : SysState :=
  let s2 :=
    match ev.event_type with
    | some "PAYMENT.CAPTURE.COMPLETED" => handlePaymentCompleted s ev
    | some "PAYMENT.CAPTURE.DENIED" => s
    | some "CHECKOUT.ORDER.COMPLETED" => s
    | _ => s
  { s2 with events := markProcessed ev.event_id s2.events }

/-- The JSON bodies the view returns; each constructor corresponds to one
literal dict in `process_webhook`. -/
inductive RespBody where
  | alreadyProcessed
  | invalidSignature
  | success
  | invalidJson
  | internalError
deriving Repr, DecidableEq

/-- A `JsonResponse`: HTTP status code and body. -/
structure HttpResp where
  status : Nat
  body : RespBody
deriving Repr, DecidableEq

/-- Outcome of the gateway signature-verification call made inside
`_verify_webhook_signature`: either the JSON response (carrying a
`verification_status` string) or any raised exception. -/
inductive VerifyOutcome where
  | result (verification_status : String)
  | exn
deriving Repr, DecidableEq

/-- `WebhookHandler._verify_webhook_signature`: true only when the call
returned `verification_status == 'SUCCESS'`; any exception is caught and
the method fails closed with `False`. -/
def verifyWebhookSignature (v : VerifyOutcome) : Bool :=
  match v with
  | VerifyOutcome.result st => st == "SUCCESS"
  | VerifyOutcome.exn => false

/-- The raw request body seen by `process_webhook`: bytes that do not
decode as UTF-8 (the `decode` raises, reaching the generic handler), a
decoded string `json.loads` rejects, or a parsed JSON object. -/
inductive RawBody where
  | undecodable
  | notJson (raw : String)
  | jsonData (d : WebhookData)
deriving Repr, DecidableEq

/-- The duplicate check `WebhookEvent.objects.filter(event_id=event_id).exists()`. -/
def eventIdSeen (events : List WebhookEventRow) (evId : String) : Bool :=
  events.any (fun e => e.event_id == evId)

/-- The row `WebhookEvent.objects.create(...)` inserts for a payload.
A payload without an `id` is modelled as storing the empty string (the
claims under study all carry an event id). -/
def mkEventRow (d : WebhookData) : WebhookEventRow :=
  { event_id := d.id.getD ""
    event_type := d.event_type
    resource_type := d.resource_type.getD ""
    resource_id := d.resource_id.getD ""
    summary := d.summary.getD ""
    raw_data := d
    processed := false }

/-- `WebhookHandler.process_webhook`: decode, parse, duplicate check,
signature check, durable insert, dispatch, acknowledge.  A decode failure
reaches the generic `except Exception` arm (500); a JSON parse failure is
answered 400; a duplicate is answered 200 with no mutation; a failed or
raising signature verification is answered 400 with no mutation. -/
def processWebhook (s : SysState) (body : RawBody) (verify : VerifyOutcome) :
    HttpResp × SysState :=
  match body with
  | RawBody.undecodable => (⟨500, RespBody.internalError⟩, s)
  | RawBody.notJson _ => (⟨400, RespBody.invalidJson⟩, s)
  | RawBody.jsonData d =>
      let event_id := d.id.getD ""
      if eventIdSeen s.events event_id then
        (⟨200, RespBody.alreadyProcessed⟩, s)
      else if !(verifyWebhookSignature verify) then
        (⟨400, RespBody.invalidSignature⟩, s)
      else
        let row := mkEventRow d
        let s1 := { s with events := s.events ++ [row] }
        let s2 := processEvent s1 row
        (⟨200, RespBody.success⟩, s2)

/-- One inbound webhook delivery: its body and the outcome the gateway
verification call would have for it. -/
structure WebhookRequest where
  body : RawBody
  verify : VerifyOutcome
deriving Repr, DecidableEq

/-- A sequence of deliveries processed in order, collecting responses. -/
def runWebhooks (s : SysState) (rs : List WebhookRequest) :
    List HttpResp × SysState :=
  match rs with
  | [] => ([], s)
  | r :: rest =>
      let out := processWebhook s r.body r.verify
      let outs := runWebhooks out.2 rest
      (out.1 :: outs.1, outs.2)

/-- Strings stored on a `WebhookEvent` row that could carry an audit
action; used to check for an unresolved-entity marker. -/
def auditActionStrings (e : WebhookEventRow) : List String :=
  [e.event_id, e.event_type.getD "", e.resource_type, e.resource_id, e.summary]

/-- Whether any durably recorded event row carries the distinct
unresolved-entity audit action the spec describes. -/
def stateHasUnresolvedAudit (s : SysState) : Bool :=
  s.events.any (fun e =>
    (auditActionStrings e).any (fun t => t == "ORDER_NOT_FOUND"))

/-! ## Concrete scenario inputs from the specification -/

/-- The end-to-end scenario 1 body of the spec: event `EVT1`, type
`PAYMENT.CAPTURE.COMPLETED`, resource `CAP1` with resource-level
`custom_id` `G-42` and amount value `19.99`. -/
def scenario1Data : WebhookData :=
  { id := some "EVT1"
    event_type := some "PAYMENT.CAPTURE.COMPLETED"
    resource_type := none
    resource_id := none
    summary := none
    resource := some { id := some "CAP1", custom_id := some "G-42",
                       purchase_units := [], amount := some ⟨some "19.99", none⟩ } }

/-- A database holding order 42 (pending) owning a fresh Payment row. -/
def scenario1State : SysState :=
  { events := []
    payments := [⟨1, "", PaymentStatus.initiated, none, some 42, none⟩]
    orders := [⟨42, OrderStatus.pending⟩]
    order_groups := [] }

/-- The end-to-end scenario 3 body: type `PAYMENT.CAPTURE.PENDING` with
`custom_id` `OG-7`. -/
def scenario3Data : WebhookData :=
  { id := some "EVT3"
    event_type := some "PAYMENT.CAPTURE.PENDING"
    resource_type := none
    resource_id := none
    summary := none
    resource := some { id := some "CAP3", custom_id := some "OG-7",
                       purchase_units := [], amount := none } }

/-- A database holding OrderGroup 7 in its initial placed status. -/
def scenario3State : SysState :=
  { events := [], payments := [], orders := [],
    order_groups := [⟨7, OrderStatus.placed⟩] }

/-- The end-to-end scenario 4 body: an unparseable `custom_id` `XYZ`,
placed in `purchase_units` so that the identifier-extraction path of
`_handle_payment_completed` actually reads it. -/
def scenario4Data : WebhookData :=
  { id := some "EVT4"
    event_type := some "PAYMENT.CAPTURE.COMPLETED"
    resource_type := none
    resource_id := none
    summary := none
    resource := some { id := some "CAP4", custom_id := none,
                       purchase_units := [⟨some "XYZ"⟩], amount := none } }

/-- A database with one order and one payment, none matching `CAP4`. -/
def scenario4State : SysState :=
  { events := []
    payments := [⟨1, "", PaymentStatus.initiated, none, some 42, none⟩]
    orders := [⟨42, OrderStatus.pending⟩]
    order_groups := [] }

/-- A delivery used for the duplicate-handling claims: a benign
`PAYMENT.CAPTURE.DENIED` payload with event id `EVT-A`. -/
def c1Data : WebhookData :=
  { id := some "EVT-A"
    event_type := some "PAYMENT.CAPTURE.DENIED"
    resource_type := none
    resource_id := some "RES-A"
    summary := none
    resource := none }

/-- The empty database. -/
def emptyState : SysState := ⟨[], [], [], []⟩
/-! ## Helper lemmas about the webhook handler -/

theorem handlePaymentCompleted_events (s : SysState) (ev : WebhookEventRow) :
    (handlePaymentCompleted s ev).events = s.events := by
  unfold handlePaymentCompleted
  dsimp only
  repeat' split
  all_goals rfl

theorem handlePaymentCompleted_nop (s : SysState) (ev : WebhookEventRow)
    (h : lookupCompletedPayment s.payments s.orders ev = none) :
    handlePaymentCompleted s ev = s := by
  unfold handlePaymentCompleted
  simp only [h]

theorem markProcessed_no_match (es : List WebhookEventRow) (i : String)
    (h : eventIdSeen es i = false) : markProcessed i es = es := by
  induction es with
  | nil => rfl
  | cons e rest ih =>
      simp only [eventIdSeen, List.any_cons, Bool.or_eq_false_iff] at h
      simp only [markProcessed, List.map_cons, h.1]
      refine congrArg₂ List.cons rfl ?_
      exact ih (by simpa [eventIdSeen] using h.2)

theorem markProcessed_append (i : String) (es1 es2 : List WebhookEventRow) :
    markProcessed i (es1 ++ es2) = markProcessed i es1 ++ markProcessed i es2 := by
  unfold markProcessed
  exact List.map_append _ _ _

theorem markProcessed_append_fresh (es : List WebhookEventRow)
    (row : WebhookEventRow) (h : eventIdSeen es row.event_id = false) :
    markProcessed row.event_id (es ++ [row])
      = es ++ [{ row with processed := true }] := by
  rw [markProcessed_append, markProcessed_no_match es _ h]
  unfold markProcessed
  simp

theorem processEvent_events (s : SysState) (ev : WebhookEventRow) :
    (processEvent s ev).events = markProcessed ev.event_id s.events := by
  unfold processEvent
  dsimp only
  split
  · rw [handlePaymentCompleted_events]
  · rfl
  · rfl
  · rfl

theorem processEvent_no_mutation (s : SysState) (ev : WebhookEventRow)
    (h : ev.event_type = some "PAYMENT.CAPTURE.COMPLETED" →
         lookupCompletedPayment s.payments s.orders ev = none) :
    processEvent s ev = { s with events := markProcessed ev.event_id s.events } := by
  unfold processEvent
  dsimp only
  split
  · next heq => rw [handlePaymentCompleted_nop s ev (h heq)]
  · rfl
  · rfl
  · rfl

theorem processWebhook_accepted (s : SysState) (d : WebhookData)
    (v : VerifyOutcome)
    (hdup : eventIdSeen s.events (d.id.getD "") = false)
    (hver : verifyWebhookSignature v = true) :
    processWebhook s (RawBody.jsonData d) v =
      (⟨200, RespBody.success⟩,
        processEvent { s with events := s.events ++ [mkEventRow d] }
          (mkEventRow d)) := by
  unfold processWebhook
  simp [hdup, hver]

theorem processWebhook_accepted_events (s : SysState) (d : WebhookData)
    (v : VerifyOutcome)
    (hdup : eventIdSeen s.events (d.id.getD "") = false)
    (hver : verifyWebhookSignature v = true) :
    (processWebhook s (RawBody.jsonData d) v).2.events
      = s.events ++ [{ mkEventRow d with processed := true }] := by
  rw [processWebhook_accepted s d v hdup hver]
  show (processEvent _ _).events = _
  rw [processEvent_events]
  exact markProcessed_append_fresh s.events (mkEventRow d) hdup

theorem processWebhook_accepted_nop (s : SysState) (d : WebhookData)
    (v : VerifyOutcome)
    (hdup : eventIdSeen s.events (d.id.getD "") = false)
    (hver : verifyWebhookSignature v = true)
    (hlook : d.event_type = some "PAYMENT.CAPTURE.COMPLETED" →
             lookupCompletedPayment s.payments s.orders (mkEventRow d) = none) :
    processWebhook s (RawBody.jsonData d) v =
      (⟨200, RespBody.success⟩,
        { s with events := s.events ++ [{ mkEventRow d with processed := true }] }) := by
  rw [processWebhook_accepted s d v hdup hver]
  rw [processEvent_no_mutation _ _ hlook]
  refine congrArg _ ?_
  show (⟨markProcessed (mkEventRow d).event_id (s.events ++ [mkEventRow d]),
        s.payments, s.orders, s.order_groups⟩ : SysState) = _
  rw [markProcessed_append_fresh s.events (mkEventRow d) hdup]

/-- C1 counterexample: the claim fails as stated.  For the two-request
sequence sharing event id EVT-A in which the first delivery makes the
signature-verification call raise, the first delivery mutates nothing
(it is rejected with 400 before a WebhookEvent is created), and the
second delivery of the same event id then mutates local state, so it is
not a no-op. -/
theorem c1_counterexample :
    (processWebhook emptyState (RawBody.jsonData c1Data) VerifyOutcome.exn
        = (⟨400, RespBody.invalidSignature⟩, emptyState))
  ∧ (runWebhooks emptyState
        [⟨RawBody.jsonData c1Data, VerifyOutcome.exn⟩,
         ⟨RawBody.jsonData c1Data, VerifyOutcome.result "SUCCESS"⟩]).2 ≠ emptyState := by
  constructor
  · rfl
  · decide

/-- C1 (amended): once a WebhookEvent row with a given event id exists
(as after the first delivery that passes the duplicate and signature
checks), every later delivery carrying that event id is a no-op on all
local state and is answered 200 with body already_processed. -/
theorem c1_idempotent_after_record (s : SysState) (i : String)
    (rs : List WebhookRequest)
    (hin : eventIdSeen s.events i = true)
    (hall : ∀ r ∈ rs, ∃ d, r.body = RawBody.jsonData d ∧ d.id = some i) :
    runWebhooks s rs
      = (rs.map (fun _ => ⟨200, RespBody.alreadyProcessed⟩), s) := by
  induction rs with
  | nil => rfl
  | cons r rest ih =>
      obtain ⟨d, hb, hid⟩ := hall r (List.mem_cons_self r rest)
      have hstep : processWebhook s r.body r.verify
          = (⟨200, RespBody.alreadyProcessed⟩, s) := by
        rw [hb]
        unfold processWebhook
        dsimp only
        rw [hid]
        simp [hin]
      simp only [runWebhooks]
      rw [hstep]
      dsimp only
      rw [ih (fun r hr => hall r (List.mem_cons_of_mem _ hr))]
      rfl

/-- C1 witness: a concrete recorded event id, redelivered once. -/
theorem c1_idempotent_after_record_witness :
    runWebhooks
        ⟨[{ event_id := "EVT-A", event_type := some "PAYMENT.CAPTURE.DENIED",
            resource_type := "", resource_id := "RES-A", summary := "",
            raw_data := c1Data, processed := true }], [], [], []⟩
        [⟨RawBody.jsonData c1Data, VerifyOutcome.result "SUCCESS"⟩]
      = ([⟨200, RespBody.alreadyProcessed⟩],
         ⟨[{ event_id := "EVT-A", event_type := some "PAYMENT.CAPTURE.DENIED",
             resource_type := "", resource_id := "RES-A", summary := "",
             raw_data := c1Data, processed := true }], [], [], []⟩) := by
  have h := c1_idempotent_after_record
      ⟨[{ event_id := "EVT-A", event_type := some "PAYMENT.CAPTURE.DENIED",
          resource_type := "", resource_id := "RES-A", summary := "",
          raw_data := c1Data, processed := true }], [], [], []⟩ "EVT-A"
      [⟨RawBody.jsonData c1Data, VerifyOutcome.result "SUCCESS"⟩]
      (by decide)
      (by intro r hr
          rw [List.mem_singleton] at hr
          subst hr
          exact ⟨c1Data, rfl, rfl⟩)
  simpa using h

/-- C2 counterexample: processing the exact scenario 1 body against a
database holding order 42 with a Payment row not yet carrying payment id
CAP1 answers 200 with body success but leaves the Payment row completely
unchanged: its status is not Complete and its payment id is not CAP1.
The handler never reads the resource-level custom id G-42 and performs
no scope-prefix parsing. -/
theorem c2_counterexample :
    ((processWebhook scenario1State (RawBody.jsonData scenario1Data)
        (VerifyOutcome.result "SUCCESS")).1 = ⟨200, RespBody.success⟩)
  ∧ ((processWebhook scenario1State (RawBody.jsonData scenario1Data)
        (VerifyOutcome.result "SUCCESS")).2.payments
      = [⟨1, "", PaymentStatus.initiated, none, some 42, none⟩])
  ∧ (∀ p ∈ (processWebhook scenario1State (RawBody.jsonData scenario1Data)
        (VerifyOutcome.result "SUCCESS")).2.payments,
      p.status ≠ PaymentStatus.complete ∧ p.payment_id ≠ "CAP1") := by
  refine ⟨rfl, rfl, ?_⟩
  decide

/-- C2 (amended): processing the scenario 1 body records the event
(marked processed) and answers 200 with body success, but mutates no
Payment, Order or OrderGroup row whenever no existing Payment row
carries payment id CAP1 case-insensitively: the handler looks up
payments only by the capture id and by purchase-unit custom ids, never
by the resource-level custom id, and has no scope-prefix table. -/
theorem c2_amended (s : SysState)
    (hdup : eventIdSeen s.events "EVT1" = false)
    (hnp : findPaymentByCaptureId s.payments "CAP1" = none) :
    processWebhook s (RawBody.jsonData scenario1Data)
        (VerifyOutcome.result "SUCCESS")
      = (⟨200, RespBody.success⟩,
         { s with events := s.events
             ++ [{ mkEventRow scenario1Data with processed := true }] }) := by
  apply processWebhook_accepted_nop
  · exact hdup
  · rfl
  · intro _
    unfold lookupCompletedPayment
    simp [scenario1Data, mkEventRow, emptyResource, orStr, purchaseUnitsOrderId, hnp]

/-- C2 witness: the amended statement at the scenario 1 database. -/
theorem c2_amended_witness :
    processWebhook scenario1State (RawBody.jsonData scenario1Data)
        (VerifyOutcome.result "SUCCESS")
      = (⟨200, RespBody.success⟩,
         { scenario1State with
             events := [{ mkEventRow scenario1Data with processed := true }] }) := by
  have h := c2_amended scenario1State (by decide) (by decide)
  simpa using h

/-- C3 counterexample: a well-formed JSON body whose signature
verification raises is answered 400, which is not a 2xx status. -/
theorem c3_counterexample :
    ((processWebhook emptyState (RawBody.jsonData c1Data) VerifyOutcome.exn).1.status
        = 400)
  ∧ ¬(200 ≤ (processWebhook emptyState (RawBody.jsonData c1Data)
          VerifyOutcome.exn).1.status
      ∧ (processWebhook emptyState (RawBody.jsonData c1Data)
          VerifyOutcome.exn).1.status ≤ 299) := by
  decide

/-- C3 (amended): the complete response-status case analysis.  Every
non-duplicate well-formed JSON body whose signature verification fails
or raises is answered 400; every duplicate and every verified
well-formed body is answered 200 (exceptions raised while applying
local state updates are caught inside event processing, so unresolved
entities and update failures still yield 200); a malformed (non-JSON)
body is answered 400; a body that does not even decode as UTF-8 reaches
the generic exception arm and is answered 500. -/
theorem c3_amended (s : SysState) (d : WebhookData) (v : VerifyOutcome)
    (raw : String) :
    ((eventIdSeen s.events (d.id.getD "") = false →
        verifyWebhookSignature v = false →
        (processWebhook s (RawBody.jsonData d) v).1.status = 400))
  ∧ (eventIdSeen s.events (d.id.getD "") = true →
        (processWebhook s (RawBody.jsonData d) v).1.status = 200)
  ∧ (verifyWebhookSignature v = true →
        (processWebhook s (RawBody.jsonData d) v).1.status = 200)
  ∧ ((processWebhook s (RawBody.notJson raw) v).1.status = 400)
  ∧ ((processWebhook s RawBody.undecodable v).1.status = 500) := by
  refine ⟨?_, ?_, ?_, rfl, rfl⟩
  · intro hdup hver
    unfold processWebhook
    dsimp only
    rw [hdup, hver]
    rfl
  · intro hdup
    unfold processWebhook
    dsimp only
    rw [hdup]
    rfl
  · intro hver
    by_cases hdup : eventIdSeen s.events (d.id.getD "") = true
    · unfold processWebhook
      dsimp only
      rw [hdup]
      rfl
    · rw [Bool.not_eq_true] at hdup
      rw [processWebhook_accepted s d v hdup hver]

/-- C3 witness: each arm of the amended case analysis at a concrete
input: a raising verification call answered 400, a duplicate answered
200, a verified request answered 200, and a malformed body answered
400. -/
theorem c3_amended_witness :
    ((processWebhook emptyState (RawBody.jsonData c1Data)
        VerifyOutcome.exn).1.status = 400)
  ∧ ((processWebhook
        ⟨[{ event_id := "EVT-A", event_type := some "PAYMENT.CAPTURE.DENIED",
            resource_type := "", resource_id := "RES-A", summary := "",
            raw_data := c1Data, processed := true }], [], [], []⟩
        (RawBody.jsonData c1Data) VerifyOutcome.exn).1.status = 200)
  ∧ ((processWebhook emptyState (RawBody.jsonData c1Data)
        (VerifyOutcome.result "SUCCESS")).1.status = 200)
  ∧ ((processWebhook emptyState (RawBody.notJson "oops")
        (VerifyOutcome.result "SUCCESS")).1.status = 400) := by
  refine ⟨?_, ?_, ?_, ?_⟩
  · exact (c3_amended emptyState c1Data VerifyOutcome.exn "oops").1
      (by decide) rfl
  · exact (c3_amended
        ⟨[{ event_id := "EVT-A", event_type := some "PAYMENT.CAPTURE.DENIED",
            resource_type := "", resource_id := "RES-A", summary := "",
            raw_data := c1Data, processed := true }], [], [], []⟩
        c1Data VerifyOutcome.exn "oops").2.1 (by decide)
  · exact (c3_amended emptyState c1Data
        (VerifyOutcome.result "SUCCESS") "oops").2.2.1 rfl
  · exact (c3_amended emptyState c1Data
        (VerifyOutcome.result "SUCCESS") "oops").2.2.2.1

/-- C7 counterexample: the scenario 4 body with unparseable custom id
XYZ is answered 200 and mutates no Payment, Order or OrderGroup row, but
no distinct unresolved audit record is created: no stored field of any
WebhookEvent row carries an ORDER_NOT_FOUND action; the outcome is
reported only in a log line. -/
theorem c7_counterexample :
    ((processWebhook scenario4State (RawBody.jsonData scenario4Data)
        (VerifyOutcome.result "SUCCESS")).1 = ⟨200, RespBody.success⟩)
  ∧ ((processWebhook scenario4State (RawBody.jsonData scenario4Data)
        (VerifyOutcome.result "SUCCESS")).2.payments = scenario4State.payments)
  ∧ ((processWebhook scenario4State (RawBody.jsonData scenario4Data)
        (VerifyOutcome.result "SUCCESS")).2.orders = scenario4State.orders)
  ∧ ((processWebhook scenario4State (RawBody.jsonData scenario4Data)
        (VerifyOutcome.result "SUCCESS")).2.order_groups
      = scenario4State.order_groups)
  ∧ (stateHasUnresolvedAudit
      (processWebhook scenario4State (RawBody.jsonData scenario4Data)
        (VerifyOutcome.result "SUCCESS")).2 = false) := by
  refine ⟨rfl, rfl, rfl, rfl, ?_⟩
  decide

/-- C7 (amended): for any non-duplicate completed-capture payload whose
identifier resolves to no Payment row, no Payment, Order or OrderGroup
row is mutated and the response is 200; the only durable trace is the
generic WebhookEvent row, marked processed, identical in shape to the
record of a successfully handled event. -/
theorem c7_amended (s : SysState) (d : WebhookData)
    (hdup : eventIdSeen s.events (d.id.getD "") = false)
    (hlook : lookupCompletedPayment s.payments s.orders (mkEventRow d) = none) :
    processWebhook s (RawBody.jsonData d) (VerifyOutcome.result "SUCCESS")
      = (⟨200, RespBody.success⟩,
         { s with events := s.events
             ++ [{ mkEventRow d with processed := true }] }) :=
  processWebhook_accepted_nop s d _ hdup rfl (fun _ => hlook)

/-- C7 witness: the amended statement at the scenario 4 input. -/
theorem c7_amended_witness :
    processWebhook scenario4State (RawBody.jsonData scenario4Data)
        (VerifyOutcome.result "SUCCESS")
      = (⟨200, RespBody.success⟩,
         { scenario4State with
             events := [{ mkEventRow scenario4Data with processed := true }] }) := by
  have h := c7_amended scenario4State scenario4Data (by decide) (by decide)
  simpa using h

/-- C8 counterexample: a well-formed inbound notification whose
signature verification raises is answered 400 and leaves no durable
record at all, refuting that every inbound notification results in a
durable append-only record. -/
theorem c8_counterexample :
    (processWebhook emptyState
        (RawBody.jsonData
          { id := some "EVT8", event_type := some "PAYMENT.CAPTURE.COMPLETED",
            resource_type := none, resource_id := none, summary := none,
            resource := none })
        VerifyOutcome.exn
      = (⟨400, RespBody.invalidSignature⟩, emptyState))
  ∧ ((processWebhook emptyState
        (RawBody.jsonData
          { id := some "EVT8", event_type := some "PAYMENT.CAPTURE.COMPLETED",
            resource_type := none, resource_id := none, summary := none,
            resource := none })
        VerifyOutcome.exn).2.events.length = 0) := by
  exact ⟨rfl, rfl⟩

/-- C8 (amended): only notifications that pass the duplicate check and
signature verification are durably recorded; the record then stores the
complete raw payload with no truncation or length bound, and rejected
notifications (failed verification or malformed body) leave no record.
The row links to the payload resource id but not to any resolved local
entity. -/
theorem c8_amended (s : SysState) (d : WebhookData) (raw : String)
    (v : VerifyOutcome)
    (hdup : eventIdSeen s.events (d.id.getD "") = false)
    (hver : verifyWebhookSignature v = true) :
    ((processWebhook s (RawBody.jsonData d) v).2.events
        = s.events ++ [{ mkEventRow d with processed := true }])
  ∧ (({ mkEventRow d with processed := true } : WebhookEventRow).raw_data = d)
  ∧ ((processWebhook s (RawBody.jsonData d) VerifyOutcome.exn).2 = s)
  ∧ ((processWebhook s (RawBody.notJson raw) v).2 = s) := by
  refine ⟨processWebhook_accepted_events s d v hdup hver, rfl, ?_, rfl⟩
  unfold processWebhook
  dsimp only
  rw [hdup]
  rfl

/-- C8 witness: the amended statement at concrete inputs. -/
theorem c8_amended_witness :
    ((processWebhook emptyState (RawBody.jsonData scenario3Data)
        (VerifyOutcome.result "SUCCESS")).2.events
      = [{ mkEventRow scenario3Data with processed := true }])
  ∧ (({ mkEventRow scenario3Data with processed := true } : WebhookEventRow).raw_data
      = scenario3Data)
  ∧ ((processWebhook emptyState (RawBody.jsonData scenario3Data)
        VerifyOutcome.exn).2 = emptyState)
  ∧ ((processWebhook emptyState (RawBody.notJson "not json")
        (VerifyOutcome.result "SUCCESS")).2 = emptyState) := by
  have h := c8_amended emptyState scenario3Data "not json"
      (VerifyOutcome.result "SUCCESS") (by decide) rfl
  simpa using h

/-- C9 counterexample: processing the scenario 3 body (custom id OG-7,
event type PAYMENT.CAPTURE.PENDING) leaves OrderGroup 7 in its prior
placed status: no OrderGroup status becomes Pending. -/
theorem c9_counterexample :
    ((processWebhook scenario3State (RawBody.jsonData scenario3Data)
        (VerifyOutcome.result "SUCCESS")).2.order_groups
      = [⟨7, OrderStatus.placed⟩])
  ∧ (∀ g ∈ (processWebhook scenario3State (RawBody.jsonData scenario3Data)
        (VerifyOutcome.result "SUCCESS")).2.order_groups,
      g.order_status ≠ OrderStatus.pending)
  ∧ ((processWebhook scenario3State (RawBody.jsonData scenario3Data)
        (VerifyOutcome.result "SUCCESS")).1 = ⟨200, RespBody.success⟩) := by
  refine ⟨rfl, ?_, rfl⟩
  decide

/-- C9 (amended): PAYMENT.CAPTURE.PENDING is not a dispatched event
type: the event is recorded and marked processed, the response is 200,
and no Payment, Order or OrderGroup row is mutated at all. -/
theorem c9_amended (s : SysState) (d : WebhookData)
    (hdup : eventIdSeen s.events (d.id.getD "") = false)
    (hev : d.event_type = some "PAYMENT.CAPTURE.PENDING") :
    processWebhook s (RawBody.jsonData d) (VerifyOutcome.result "SUCCESS")
      = (⟨200, RespBody.success⟩,
         { s with events := s.events
             ++ [{ mkEventRow d with processed := true }] }) :=
  processWebhook_accepted_nop s d _ hdup rfl
    (fun h => by rw [hev] at h; exact absurd h (by decide))

/-- C9 witness: the amended statement at the scenario 3 input. -/
theorem c9_amended_witness :
    processWebhook scenario3State (RawBody.jsonData scenario3Data)
        (VerifyOutcome.result "SUCCESS")
      = (⟨200, RespBody.success⟩,
         { scenario3State with
             events := [{ mkEventRow scenario3Data with processed := true }] }) := by
  have h := c9_amended scenario3State scenario3Data (by decide) rfl
  simpa using h

/-- C10: signature verification fails closed.  For every non-duplicate
well-formed request whose verification call raises, the request is
rejected with 400 and body invalid-signature, no WebhookEvent row is
created, and no Payment, Order or OrderGroup row is mutated (the state
is returned unchanged). -/
theorem c10_signature_fails_closed (s : SysState) (d : WebhookData)
    (hdup : eventIdSeen s.events (d.id.getD "") = false) :
    processWebhook s (RawBody.jsonData d) VerifyOutcome.exn
      = (⟨400, RespBody.invalidSignature⟩, s) := by
  unfold processWebhook
  dsimp only
  rw [hdup]
  rfl

/-- C10 witness: a raising verification call on the scenario 1 input. -/
theorem c10_signature_fails_closed_witness :
    processWebhook scenario1State (RawBody.jsonData scenario1Data)
        VerifyOutcome.exn
      = (⟨400, RespBody.invalidSignature⟩, scenario1State) :=
  c10_signature_fails_closed scenario1State scenario1Data (by decide)

/-- C4: the token cache policy.  The first request after construction
performs exactly one exchange; a request holding a cached token (in the
sense of the source guard: nonempty token, nonzero expiry) strictly
before its recorded expiry performs no exchange and returns the cached
token unchanged; a request at or after the recorded expiry performs
exactly one new exchange. -/
theorem c4_token_cache (st : ClientState) (now : Int) (xr : ExchangeResult)
    (t : String) (e : Int) :
    ((getAccessToken ClientState.fresh now true xr).2.2 = 1)
  ∧ (st.access_token = some t → st.token_expires_at = some e →
      t ≠ "" → e ≠ 0 → now < e →
      getAccessToken st now true xr = (Except.ok t, st, 0))
  ∧ (st.access_token = some t → st.token_expires_at = some e → e ≤ now →
      (getAccessToken st now true xr).2.2 = 1) := by
  refine ⟨?_, ?_, ?_⟩
  · unfold getAccessToken tokenCacheValid ClientState.fresh
    cases xr <;> rfl
  · intro h1 h2 h3 h4 h5
    have hval : tokenCacheValid st now = true := by
      unfold tokenCacheValid
      rw [h1, h2]
      simp [h3, h4, h5]
    unfold getAccessToken
    rw [hval, h1]
    rfl
  · intro h1 h2 h5
    have hval : tokenCacheValid st now = false := by
      unfold tokenCacheValid
      rw [h1, h2]
      simp [not_lt.mpr h5]
    unfold getAccessToken
    rw [hval]
    cases xr <;> rfl

/-- C4 witness: the three cache behaviours at concrete instants. -/
theorem c4_token_cache_witness :
    (getAccessToken ⟨some "tok", some 100⟩ 50 true
        (ExchangeResult.success "t2" none)
      = (Except.ok "tok", ⟨some "tok", some 100⟩, 0))
  ∧ ((getAccessToken ClientState.fresh 50 true
        (ExchangeResult.success "t2" none)).2.2 = 1)
  ∧ ((getAccessToken ⟨some "tok", some 100⟩ 200 true ExchangeResult.failure).2.2
      = 1) := by
  refine ⟨?_, ?_, ?_⟩
  · exact (c4_token_cache ⟨some "tok", some 100⟩ 50
        (ExchangeResult.success "t2" none) "tok" 100).2.1 rfl rfl
        (by decide) (by decide) (by decide)
  · exact (c4_token_cache ⟨some "tok", some 100⟩ 50
        (ExchangeResult.success "t2" none) "tok" 100).1
  · exact (c4_token_cache ⟨some "tok", some 100⟩ 200
        ExchangeResult.failure "tok" 100).2.2 rfl rfl (by decide)

/-- C5: when the OAuth exchange fails, the error propagates to the
caller after exactly one exchange attempt (no internal retry), the
cached token and expiry are left unchanged, and a subsequent request on
the still-empty cache performs the exchange again. -/
theorem c5_exchange_failure (st : ClientState) (now now2 : Int)
    (xr2 : ExchangeResult)
    (h : tokenCacheValid st now = false) :
    (getAccessToken st now true ExchangeResult.failure
        = (Except.error ClientErr.requestException, st, 1))
  ∧ (st.access_token = none → (getAccessToken st now2 true xr2).2.2 = 1) := by
  constructor
  · unfold getAccessToken
    rw [h]
    rfl
  · intro hn
    have h2 : tokenCacheValid st now2 = false := by
      unfold tokenCacheValid
      rw [hn]
    unfold getAccessToken
    rw [h2]
    cases xr2 <;> rfl

/-- C5 witness: a failed exchange on a fresh client, then a retry. -/
theorem c5_exchange_failure_witness :
    (getAccessToken ClientState.fresh 1000 true ExchangeResult.failure
        = (Except.error ClientErr.requestException, ClientState.fresh, 1))
  ∧ ((getAccessToken ClientState.fresh 2000 true
        (ExchangeResult.success "tok" (some 3600))).2.2 = 1) := by
  have h := c5_exchange_failure ClientState.fresh 1000 2000
      (ExchangeResult.success "tok" (some 3600)) (by decide)
  exact ⟨h.1, h.2 rfl⟩

theorem activateNamed_no_match (name : String) (l : ConfigDB)
    (h : ∀ c ∈ l, (c.name == name) = false) : activateNamed name l = l := by
  induction l with
  | nil => rfl
  | cons c rest ih =>
      simp only [activateNamed, List.map_cons, h c (List.mem_cons_self c rest)]
      refine congrArg₂ List.cons rfl ?_
      exact ih (fun x hx => h x (List.mem_cons_of_mem _ hx))

theorem deactivateAll_activateNamed (name : String) (l : ConfigDB) :
    deactivateAll (activateNamed name l) = deactivateAll l := by
  induction l with
  | nil => rfl
  | cons c rest ih =>
      simp only [activateNamed, deactivateAll, List.map_cons] at *
      refine congrArg₂ List.cons ?_ ih
      cases h : (c.name == name) <;> simp [h]

theorem deactivateAll_idem (l : ConfigDB) :
    deactivateAll (deactivateAll l) = deactivateAll l := by
  induction l with
  | nil => rfl
  | cons c rest ih =>
      simp only [deactivateAll, List.map_cons] at *
      exact congrArg₂ List.cons rfl ih

theorem activation_flags (db : ConfigDB) (name : String) :
    (activateNamed name (deactivateAll db)).all
      (fun c => c.is_active == (c.name == name)) = true := by
  induction db with
  | nil => rfl
  | cons c rest ih =>
      simp only [deactivateAll, activateNamed, List.map_cons, List.all_cons] at *
      rw [ih, Bool.and_true]
      cases h : (c.name == name) <;> simp [h]

theorem activeCountIn_deactivateAll (l : ConfigDB) (m : Mode) :
    activeCountIn (deactivateAll l) m = 0 := by
  induction l with
  | nil => rfl
  | cons c rest ih =>
      simp only [deactivateAll, List.map_cons] at *
      unfold activeCountIn at *
      simp only [List.filter_cons, Bool.false_and]
      exact ih

theorem activeCount_le_flagged (l : ConfigDB) (name : String) (m : Mode)
    (h : l.all (fun c => c.is_active == (c.name == name)) = true) :
    activeCountIn l m ≤ (l.filter (fun c => c.name == name)).length := by
  induction l with
  | nil => simp [activeCountIn]
  | cons c rest ih =>
      simp only [List.all_cons, Bool.and_eq_true] at h
      obtain ⟨hc, hrest⟩ := h
      unfold activeCountIn at *
      simp only [List.filter_cons]
      cases ha : c.is_active with
      | false =>
          simp only [ha, Bool.false_and, Bool.false_eq_true, if_false]
          cases hn : (c.name == name) with
          | false =>
              simp only [hn, Bool.false_eq_true, if_false]
              exact ih hrest
          | true =>
              simp only [hn, if_true]
              exact le_trans (ih hrest) (by simp)
      | true =>
          rw [ha] at hc
          have hn : (c.name == name) = true := by simpa using hc
          simp only [ha, hn, Bool.true_and, if_true]
          cases hm : (c.mode == m) with
          | false =>
              simp only [hm, Bool.false_eq_true, if_false]
              exact le_trans (ih hrest) (by simp)
          | true =>
              simp only [hm, if_true]
              simpa using Nat.succ_le_succ (ih hrest)

theorem filter_name_le_one (l : ConfigDB) (name : String)
    (hnd : (l.map (fun c => c.name)).Nodup) :
    (l.filter (fun c => c.name == name)).length ≤ 1 := by
  induction l with
  | nil => simp
  | cons c rest ih =>
      simp only [List.map_cons, List.nodup_cons] at hnd
      obtain ⟨hname, hrest⟩ := hnd
      simp only [List.filter_cons]
      cases hn : (c.name == name) with
      | false =>
          simp only [hn, Bool.false_eq_true, if_false]
          exact ih hrest
      | true =>
          have hcname : c.name = name := by simpa using hn
          have hnil : rest.filter (fun c => c.name == name) = [] := by
            rw [List.filter_eq_nil_iff]
            intro x hx hxp
            have hxeq : x.name = name := by simpa using hxp
            have hmem : x.name ∈ rest.map (fun c => c.name) :=
              List.mem_map_of_mem _ hx
            rw [hxeq, ← hcname] at hmem
            exact absurd hmem hname
          simp [hn, hnil]

theorem setActive_names (db : ConfigDB) (name : String) :
    (activateNamed name (deactivateAll db)).map (fun c => c.name)
      = db.map (fun c => c.name) := by
  induction db with
  | nil => rfl
  | cons c rest ih =>
      simp only [deactivateAll, activateNamed, List.map_cons] at *
      refine congrArg₂ List.cons ?_ ih
      cases h : (c.name == name) <;> simp [h]

theorem active_le_one (db : ConfigDB) (name : String) (m : Mode)
    (hnd : (db.map (fun c => c.name)).Nodup) :
    activeCountIn (activateNamed name (deactivateAll db)) m ≤ 1 := by
  refine le_trans
    (activeCount_le_flagged _ name m (activation_flags db name)) ?_
  apply filter_name_le_one
  rw [setActive_names]
  exact hnd

/-- C6 counterexample: storing credential set A and then credential set
B, both for the sandbox environment, leaves both rows active:
store_credentials does not preserve the at-most-one-active-per-
environment invariant. -/
theorem c6_counterexample :
    atMostOneActivePerEnv
      (store_credentials
        (store_credentials [] "A" "idA" "secA" Mode.sandbox)
        "B" "idB" "secB" Mode.sandbox) = false := by
  decide

/-- C6 (amended): set_active_configuration deactivates every
configuration (across all environments) and then activates exactly the
named one, so activating B when A was active leaves A inactive and B
active; the call is idempotent; and, for unique configuration names, it
establishes at most one active configuration per environment.  The
store_credentials operation does not preserve that invariant (see the
counterexample). -/
theorem c6_amended (db : ConfigDB) (name : String)
    (hnd : (db.map (fun c => c.name)).Nodup) :
    ((set_active_configuration db name).2.all
        (fun c => c.is_active == (c.name == name)) = true)
  ∧ (set_active_configuration (set_active_configuration db name).2 name
      = set_active_configuration db name)
  ∧ (atMostOneActivePerEnv (set_active_configuration db name).2 = true) := by
  refine ⟨?_, ?_, ?_⟩
  · unfold set_active_configuration
    dsimp only
    cases hfind : (deactivateAll db).find? (fun c => c.name == name) with
    | some c =>
        dsimp only
        exact activation_flags db name
    | none =>
        dsimp only
        rw [List.all_eq_true]
        intro x hx
        obtain ⟨y, hy, rfl⟩ := List.mem_map.mp hx
        have hnm := List.find?_eq_none.mp hfind _ hx
        simp only [Bool.not_eq_true] at hnm
        simpa using hnm.symm
  · unfold set_active_configuration
    dsimp only
    cases hfind : (deactivateAll db).find? (fun c => c.name == name) with
    | none =>
        dsimp only
        rw [deactivateAll_idem, hfind]
    | some c =>
        dsimp only
        rw [deactivateAll_activateNamed, deactivateAll_idem, hfind]
  · unfold set_active_configuration
    dsimp only
    cases hfind : (deactivateAll db).find? (fun c => c.name == name) with
    | some c =>
        dsimp only
        unfold atMostOneActivePerEnv
        simp only [Bool.and_eq_true, decide_eq_true_eq]
        exact ⟨active_le_one db name Mode.sandbox hnd,
               active_le_one db name Mode.live hnd⟩
    | none =>
        dsimp only
        unfold atMostOneActivePerEnv
        simp [activeCountIn_deactivateAll]

/-- C6 witness: the amended statement on a two-row sandbox table. -/
theorem c6_amended_witness :
    (((set_active_configuration
          [⟨"A", "idA", "secA", Mode.sandbox, true⟩,
           ⟨"B", "idB", "secB", Mode.sandbox, false⟩] "B").2.all
        (fun c => c.is_active == (c.name == "B")) = true)
  ∧ (set_active_configuration
        (set_active_configuration
          [⟨"A", "idA", "secA", Mode.sandbox, true⟩,
           ⟨"B", "idB", "secB", Mode.sandbox, false⟩] "B").2 "B"
      = set_active_configuration
          [⟨"A", "idA", "secA", Mode.sandbox, true⟩,
           ⟨"B", "idB", "secB", Mode.sandbox, false⟩] "B")
  ∧ (atMostOneActivePerEnv
      (set_active_configuration
        [⟨"A", "idA", "secA", Mode.sandbox, true⟩,
         ⟨"B", "idB", "secB", Mode.sandbox, false⟩] "B").2 = true)) :=
  c6_amended _ "B" (by decide)

end PayPalPlugin
